import Mathlib

/-!
Verification of the External Tool Orchestration Pipeline shared by the three
BB-Astro PixInsight scripts (BB_DeepCosmicRay.js, BB-Astro_LAcosmic.js,
BB_CosmeticCorrection.js).

The embedding is a shallow one.  Pure path/string manipulation is translated
directly.  The host environment (PixInsight) is modelled by an explicit
environment record stating, for one job, which host operations succeed
(file export, process completion times, exit code, output file presence,
image open/read success, pixel assignment success).  Each pipeline function
returns the job outcome (`none` = success, `some msg` = the thrown error
message) together with an ordered trace of observable events: process spawn
and kill, capture of the process result, file open/read attempts, the
begin/assign/end bracket on the target view, window creation, error/success
reports, and the cleanup call with the list of files it removes.

Modelling conventions, stated once here:
* JavaScript numbers are modelled as rationals; their decimal rendering is
  abstracted by `numToString` (no claim inspects the rendered digits).
* `File.systemTempDirectory` is modelled by the constant
  `systemTempDirectory`; its value never matters.
* Console log lines are not events.  The outcome report of a job is the
  message box shown for an error, and the final success notification
  (console summary or message box) for success.
* Host-level exceptions thrown by `image.assign` are modelled by the
  environment flag `assignOk`; the scripts give them no message of their
  own, so a descriptive placeholder message is used.
* The PixInsight `Parameters` store is modelled as a typed key/value table.
-/

/-- Model value for the host `Parameters` store: one of the four persisted
types (boolean, integer, real, string). -/
inductive PValue : Type
  | b (x : Bool)
  | i (x : Int)
  | r (x : ℚ)
  | s (x : String)
deriving DecidableEq

/-- The persisted form of a parameter set: an association table from key to
typed value, mirroring the host `Parameters` object. -/
abbrev ParamTable := List (String × PValue)

/-- `Parameters.set`: store a value under a key, overwriting an existing
binding. -/
def pSet (t : ParamTable) (k : String) (v : PValue) : ParamTable :=
  match t with
  | [] => [(k, v)]
  | (k1, v1) :: rest => if k1 = k then (k, v) :: rest else (k1, v1) :: pSet rest k v

/-- Raw lookup in the parameter table. -/
def pLookup : ParamTable → String → Option PValue
  | [], _ => none
  | (k1, v) :: rest, k => if k1 = k then some v else pLookup rest k

/-- `Parameters.has` followed by `Parameters.getBoolean`: the combined
"if present, read as boolean" used by the import routines. -/
def pGetBoolean (t : ParamTable) (k : String) : Option Bool :=
  match pLookup t k with
  | some (.b x) => some x
  | _ => none

/-- `Parameters.has` followed by `Parameters.getInteger`. -/
def pGetInteger (t : ParamTable) (k : String) : Option Int :=
  match pLookup t k with
  | some (.i x) => some x
  | _ => none

/-- `Parameters.has` followed by `Parameters.getReal`. -/
def pGetReal (t : ParamTable) (k : String) : Option ℚ :=
  match pLookup t k with
  | some (.r x) => some x
  | _ => none

/-- `Parameters.has` followed by `Parameters.getString`. -/
def pGetString (t : ParamTable) (k : String) : Option String :=
  match pLookup t k with
  | some (.s x) => some x
  | _ => none

/-- The persisted fields of the `BBDeepCR` settings object
(BB_DeepCosmicRay.js lines 81-97; `inpaint`, which is never read anywhere in
the script, and the fixed system paths are kept out of the record). -/
structure BBDeepCRSettings : Type where
  model : String
  threshold : ℚ
  preset : String
  saveMask : Bool
  replaceActive : Bool
deriving DecidableEq

/-- Default values of the `BBDeepCR` settings object. -/
def dcrDefaults : BBDeepCRSettings :=
  { model := "WFC3-UVIS", threshold := 1/10, preset := "optimal",
    saveMask := false, replaceActive := false }

/-- `exportParameters` of BB_DeepCosmicRay.js (lines 115-121). -/
def dcrExportParameters (p : BBDeepCRSettings) : ParamTable :=
  pSet (pSet (pSet (pSet (pSet [] "model" (.s p.model))
    "threshold" (.r p.threshold))
    "preset" (.s p.preset))
    "saveMask" (.b p.saveMask))
    "replaceActive" (.b p.replaceActive)

/-- `importParameters` of BB_DeepCosmicRay.js (lines 127-138): each
recognized key present in the table overwrites the current value; keys that
are absent keep the current value. -/
def dcrImportParameters (t : ParamTable) (s : BBDeepCRSettings) : BBDeepCRSettings :=
  let s := match pGetString t "model" with
    | some v => { s with model := v }
    | none => s
  let s := match pGetReal t "threshold" with
    | some v => { s with threshold := v }
    | none => s
  let s := match pGetString t "preset" with
    | some v => { s with preset := v }
    | none => s
  let s := match pGetBoolean t "saveMask" with
    | some v => { s with saveMask := v }
    | none => s
  match pGetBoolean t "replaceActive" with
  | some v => { s with replaceActive := v }
  | none => s

/-- The `BBLACosmic` settings object (BB-Astro_LAcosmic.js lines 89-115).
The first eight fields are the persisted keys; the remaining fields are the
fixed advanced parameters that only feed the command line. -/
structure BBLACosmicSettings : Type where
  sigclip : ℚ
  objlim : ℚ
  readnoise : ℚ
  gain : ℚ
  niter : Int
  cleantype : String
  saveMask : Bool
  replaceActive : Bool
  sigfrac : ℚ
  sepmed : Bool
  fsmode : String
  psfmodel : String
  psffwhm : ℚ
  psfsize : Int
  psfbeta : ℚ
  satlevel : Int
deriving DecidableEq

/-- Default values of the `BBLACosmic` settings object. -/
def lacDefaults : BBLACosmicSettings :=
  { sigclip := 3/2, objlim := 3/2, readnoise := 9, gain := 1, niter := 6,
    cleantype := "meanmask", saveMask := false, replaceActive := false,
    sigfrac := 3/10, sepmed := true, fsmode := "median", psfmodel := "gauss",
    psffwhm := 5/2, psfsize := 7, psfbeta := 4765/1000, satlevel := 65535 }

/-- `exportParameters` of BB-Astro_LAcosmic.js (lines 124-133). -/
def lacExportParameters (p : BBLACosmicSettings) : ParamTable :=
  pSet (pSet (pSet (pSet (pSet (pSet (pSet (pSet [] "sigclip" (.r p.sigclip))
    "objlim" (.r p.objlim))
    "readnoise" (.r p.readnoise))
    "gain" (.r p.gain))
    "niter" (.i p.niter))
    "cleantype" (.s p.cleantype))
    "saveMask" (.b p.saveMask))
    "replaceActive" (.b p.replaceActive)

/-- `importParameters` of BB-Astro_LAcosmic.js (lines 138-155). -/
def lacImportParameters (t : ParamTable) (s : BBLACosmicSettings) : BBLACosmicSettings :=
  let s := match pGetReal t "sigclip" with
    | some v => { s with sigclip := v }
    | none => s
  let s := match pGetReal t "objlim" with
    | some v => { s with objlim := v }
    | none => s
  let s := match pGetReal t "readnoise" with
    | some v => { s with readnoise := v }
    | none => s
  let s := match pGetReal t "gain" with
    | some v => { s with gain := v }
    | none => s
  let s := match pGetInteger t "niter" with
    | some v => { s with niter := v }
    | none => s
  let s := match pGetString t "cleantype" with
    | some v => { s with cleantype := v }
    | none => s
  let s := match pGetBoolean t "saveMask" with
    | some v => { s with saveMask := v }
    | none => s
  match pGetBoolean t "replaceActive" with
  | some v => { s with replaceActive := v }
  | none => s

/-- The persisted fields of the `CosmeticCorrectionData` object
(BB_CosmeticCorrection.js lines 35-45; the target view handle is part of the
host environment, not of the persisted data). -/
structure CCData : Type where
  useProcessIcon : Bool
  processIconId : String
  useAutoDetect : Bool
  hotSigma : ℚ
  coldSigma : ℚ
  amount : ℚ
  cfa : Bool
deriving DecidableEq

/-- Default values of `CosmeticCorrectionData`. -/
def ccDefaults : CCData :=
  { useProcessIcon := false, processIconId := "", useAutoDetect := true,
    hotSigma := 9/5, coldSigma := 7/5, amount := 1, cfa := false }

/-- `exportParameters` of BB_CosmeticCorrection.js (lines 56-64). -/
def ccExportParameters (p : CCData) : ParamTable :=
  pSet (pSet (pSet (pSet (pSet (pSet (pSet [] "useProcessIcon" (.b p.useProcessIcon))
    "processIconId" (.s p.processIconId))
    "useAutoDetect" (.b p.useAutoDetect))
    "hotSigma" (.r p.hotSigma))
    "coldSigma" (.r p.coldSigma))
    "amount" (.r p.amount))
    "cfa" (.b p.cfa)

/-- `importParameters` of BB_CosmeticCorrection.js (lines 69-84). -/
def ccImportParameters (t : ParamTable) (s : CCData) : CCData :=
  let s := match pGetBoolean t "useProcessIcon" with
    | some v => { s with useProcessIcon := v }
    | none => s
  let s := match pGetString t "processIconId" with
    | some v => { s with processIconId := v }
    | none => s
  let s := match pGetBoolean t "useAutoDetect" with
    | some v => { s with useAutoDetect := v }
    | none => s
  let s := match pGetReal t "hotSigma" with
    | some v => { s with hotSigma := v }
    | none => s
  let s := match pGetReal t "coldSigma" with
    | some v => { s with coldSigma := v }
    | none => s
  let s := match pGetReal t "amount" with
    | some v => { s with amount := v }
    | none => s
  match pGetBoolean t "cfa" with
  | some v => { s with cfa := v }
  | none => s

/-- Lower-casing of a path string (`String.toLowerCase` in the scripts),
implemented over the character list so that it can be reasoned about. -/
def strToLower (s : String) : String := ⟨s.data.map Char.toLower⟩

/-- Suffix test on strings (`String.endsWith` in the scripts), implemented
over the character list so that it can be reasoned about. -/
def strEndsWith (s sfx : String) : Bool := sfx.data.isSuffixOf s.data

/-- Decimal rendering of a JavaScript number (`Number.toString`).  The exact
digit sequence never matters for any property below; rationals are rendered
with the standard rational printer. -/
def numToString (q : ℚ) : String := toString q

/-- `File.systemTempDirectory`.  The host-dependent value is irrelevant; a
fixed representative is used. -/
def systemTempDirectory : String := "/tmp"

/-- Directory of the running script (`File.extractDirectory(#__FILE__)`),
used only to locate the wrapper shell script. -/
def scriptDirectory : String := "/scripts"

/-- `BBDeepCR.wrapperScript` (BB_DeepCosmicRay.js line 95). -/
def dcrWrapperScript : String := scriptDirectory ++ "/run_deepcr.sh"

/-- `BBLACosmic.wrapperScript` (BB-Astro_LAcosmic.js line 113). -/
def lacWrapperScript : String := scriptDirectory ++ "/run_lacosmic.sh"

/-- Observable events of one job, in execution order.  `cleanup` carries the
list of files the cleanup code removes (the paths that are both recorded in
a path variable and present on disk). -/
inductive Ev : Type
  | spawn (cmd : List String)
  | kill
  | captured (exitCode : Int)
  | execGlobal
  | fileOpen (path : String)
  | fileRead (path : String)
  | beginTarget
  | assignTarget
  | endTarget
  | newWindow (id : String)
  | maskWindow (id : String)
  | reportError (msg : String)
  | reportSuccess
  | cleanup (removed : List String)
deriving DecidableEq

/-- Result of one pipeline run: the outcome (`none` = success, `some msg` =
the error message thrown) and the ordered event trace. -/
structure RunResult : Type where
  outcome : Option String
  trace : List Ev
deriving DecidableEq

/-- Outcome of the process supervision loop: the process was observed
finished at a poll, or the timeout budget was exceeded and the process was
killed.  `fuelOut` is an artifact of the fuelled definition and is proved
unreachable. -/
inductive SupOutcome : Type
  | finished (elapsed : Nat)
  | timedOut (elapsed : Nat)
  | fuelOut
deriving DecidableEq

/-- One iteration per poll of the supervision loop
(`while (!process.waitForFinished(100)) { ... }`, BB_DeepCosmicRay.js lines
273-282 and BB-Astro_LAcosmic.js lines 287-295).  `fb t` states whether the
child process has terminated by elapsed time `t`; each poll takes one poll
interval of wall-clock time, after which the elapsed-time check
`(Date.now() - startTime) > TIMEOUT_MS` fires. -/
def superviseAux (fb : Nat → Bool) (tMs pMs : Nat) : Nat → Nat → SupOutcome
  | 0, _ => .fuelOut
  | fuel + 1, elapsed =>
    if fb (elapsed + pMs) then .finished (elapsed + pMs)
    else if tMs < elapsed + pMs then .timedOut (elapsed + pMs)
    else superviseAux fb tMs pMs fuel (elapsed + pMs)

/-- The supervision loop with timeout budget `tMs` and poll interval `pMs`,
started with enough fuel for every poll up to the budget. -/
def supervise (fb : Nat → Bool) (tMs pMs : Nat) : SupOutcome :=
  superviseAux fb tMs pMs (tMs / pMs + 1) 0

/-- `generateSecureTempFilename` of BB_DeepCosmicRay.js (lines 144-149):
timestamp plus random suffix inside the system temp directory.  The two
concatenated `Math.random()` strings are modelled as one random draw `r`. -/
def dcrGenerateSecureTempFilename (t : Nat) (r : String) : String :=
  systemTempDirectory ++ "/bbdcr_" ++ toString t ++ "_" ++ r ++ ".xisf"

/-- `generateSecureTempFilename` of BB-Astro_LAcosmic.js (lines 161-166). -/
def lacGenerateSecureTempFilename (t : Nat) (r : String) : String :=
  systemTempDirectory ++ "/bblac_" ++ toString t ++ "_" ++ r ++ ".fits"

/-- Temp input path of BB_CosmeticCorrection.js (line 425): the timestamp is
the only varying component; no random suffix is drawn. -/
def ccTempInputFile (t : Nat) : String :=
  systemTempDirectory ++ "/bb_cc_input_" ++ toString t ++ ".xisf"

/-- Expected output path of BB_CosmeticCorrection.js (line 426): input base
name plus the `_cc` postfix. -/
def ccTempOutputFile (t : Nat) : String :=
  systemTempDirectory ++ "/bb_cc_input_" ++ toString t ++ "_cc.xisf"

/-- `File.extractName` of the DeepCR temp file followed by the extension
strip of BB_DeepCosmicRay.js lines 308-311. -/
def dcrTempBaseName (t : Nat) (r : String) : String :=
  "bbdcr_" ++ toString t ++ "_" ++ r

/-- Expected cleaned-output path of BB_DeepCosmicRay.js (line 313). -/
def dcrCleanedPath (th : ℚ) (t : Nat) (r : String) : String :=
  systemTempDirectory ++ "/" ++ dcrTempBaseName t r ++ "_deepcr_th" ++
    numToString th ++ "_cleaned.xisf"

/-- Expected mask-output path of BB_DeepCosmicRay.js (line 351). -/
def dcrMaskPath (th : ℚ) (t : Nat) (r : String) : String :=
  systemTempDirectory ++ "/" ++ dcrTempBaseName t r ++ "_deepcr_th" ++
    numToString th ++ "_mask.xisf"

/-- `File.extractName` of the LAcosmic temp file followed by the extension
strip of BB-Astro_LAcosmic.js lines 319-322. -/
def lacTempBaseName (t : Nat) (r : String) : String :=
  "bblac_" ++ toString t ++ "_" ++ r

/-- Expected cleaned-output path of BB-Astro_LAcosmic.js (line 324). -/
def lacOutputPath (t : Nat) (r : String) : String :=
  systemTempDirectory ++ "/" ++ lacTempBaseName t r ++ "_crr.fits"

/-- Expected mask-output path of BB-Astro_LAcosmic.js (line 325). -/
def lacMaskPath (t : Nat) (r : String) : String :=
  systemTempDirectory ++ "/" ++ lacTempBaseName t r ++ "_crm.fits"

/-- Format detection of `loadImage` in BB_DeepCosmicRay.js (lines 180-189):
the container format is chosen from the lower-cased filename suffix alone;
an unrecognized suffix yields no format. -/
def dcrDetectFormat (path : String) : Option String :=
  if strEndsWith (strToLower path) ".xisf" then some ".xisf"
  else if strEndsWith (strToLower path) ".fits" || strEndsWith (strToLower path) ".fit" then
    some ".fits"
  else none

/-- `loadImage` of BB_DeepCosmicRay.js (lines 178-206).  `openOk` and
`readOk` state whether the host can open respectively decode the file.  The
returned events record the file-access attempts actually made. -/
def loadImage (path : String) (openOk readOk : Bool) : Except String Unit × List Ev :=
  match dcrDetectFormat path with
  | none => (.error ("Unsupported image format: " ++ path), [])
  | some _ =>
    if openOk then
      if readOk then (.ok (), [.fileOpen path, .fileRead path])
      else (.error ("Cannot read image: " ++ path), [.fileOpen path, .fileRead path])
    else (.error ("Cannot open image file: " ++ path), [.fileOpen path])

/-- `loadFITSImage` of BB-Astro_LAcosmic.js (lines 200-216): the FITS format
is hard-coded; the file is opened whatever its suffix. -/
def loadFITSImage (path : String) (openOk readOk : Bool) : Except String Unit × List Ev :=
  if openOk then
    if readOk then (.ok (), [.fileOpen path, .fileRead path])
    else (.error ("Cannot read FITS image: " ++ path), [.fileOpen path, .fileRead path])
  else (.error ("Cannot open FITS file: " ++ path), [.fileOpen path])

/-- `buildCommandArray` of BB_DeepCosmicRay.js (lines 151-176).  Note that
it performs no validation of any kind. -/
def dcrBuildCommandArray (s : BBDeepCRSettings) (inputPath : String) : List String :=
  (["/bin/bash", dcrWrapperScript, inputPath, systemTempDirectory,
      numToString s.threshold] ++
    (if s.preset ≠ "" ∧ s.preset ≠ "custom" then ["--preset", s.preset] else []) ++
    (if s.saveMask then ["--save-mask"] else [])) ++
  ["--format", "XISF"]

/-- `buildCommandArray` of BB-Astro_LAcosmic.js (lines 168-198). -/
def lacBuildCommandArray (s : BBLACosmicSettings) (inputPath : String) : List String :=
  (["/bin/bash", lacWrapperScript, inputPath,
      "--outdir", systemTempDirectory,
      "--suffix", "_crr",
      "--sigclip", numToString s.sigclip,
      "--sigfrac", numToString s.sigfrac,
      "--objlim", numToString s.objlim,
      "--gain", numToString s.gain,
      "--readnoise", numToString s.readnoise,
      "--satlevel", toString s.satlevel,
      "--niter", toString s.niter,
      "--cleantype", s.cleantype,
      "--sepmed", if s.sepmed then "True" else "False",
      "--fsmode", s.fsmode,
      "--psfmodel", s.psfmodel,
      "--psffwhm", numToString s.psffwhm,
      "--psfsize", toString s.psfsize,
      "--psfbeta", numToString s.psfbeta] ++
    (if s.saveMask then ["--save-mask"] else [])) ++
  ["--verbose"]

/-- Host environment of one DeepCR or LAcosmic job: which host operations
succeed, when the child process terminates, its exit code, which output
files the tool left on disk, and the timestamp/random draw of the job. -/
structure JobEnv : Type where
  wrapperExists : Bool
  hasActiveWindow : Bool
  saveAsOk : Bool
  finishedBy : Nat → Bool
  exitCode : Int
  cleanedExists : Bool
  cleanedOpenOk : Bool
  cleanedReadOk : Bool
  assignOk : Bool
  maskExists : Bool
  maskOpenOk : Bool
  maskReadOk : Bool
  timestamp : Nat
  rand : String

/-- State of the try block at its exit: the thrown error (`none` when the
block ran to the end), the events of the block, and the values of the three
nullable path variables declared at function scope (`tempFile`,
`cleanedPath`/`outputPath`, `maskPath`). -/
structure TryOut : Type where
  err : Option String
  events : List Ev
  tempFile : Option String
  cleanedPath : Option String
  maskPath : Option String

/-- The result-application step of BB_DeepCosmicRay.js (lines 325-347):
in replace mode the target view is mutated between `beginProcess` and
`endProcess` with no surrounding try/finally, so a failing `assign` leaves
the bracket open; in new-window mode a new window is shown on success. -/
def dcrApplyStep (replaceActive assignOk : Bool) : Option String × List Ev :=
  if replaceActive then
    if assignOk then (none, [.beginTarget, .assignTarget, .endTarget])
    else (some "Host exception while assigning the target image", [.beginTarget])
  else
    if assignOk then (none, [.newWindow "_DeepCR"])
    else (some "Host exception while assigning the new image window", [])

/-- The mask-loading step of BB_DeepCosmicRay.js (lines 350-374): only
entered when `saveMask` is set; the mask path variable is assigned first,
then a missing mask file is silently skipped, and an existing mask is loaded
and shown in its own window. -/
def dcrMaskStep (s : BBDeepCRSettings) (env : JobEnv) :
    Option String × List Ev × Option String :=
  if s.saveMask then
    if env.maskExists then
      match (loadImage (dcrMaskPath s.threshold env.timestamp env.rand)
          env.maskOpenOk env.maskReadOk).1 with
      | .ok _ =>
        (none,
          (loadImage (dcrMaskPath s.threshold env.timestamp env.rand)
            env.maskOpenOk env.maskReadOk).2 ++ [.maskWindow "_CR_Mask"],
          some (dcrMaskPath s.threshold env.timestamp env.rand))
      | .error m =>
        (some m,
          (loadImage (dcrMaskPath s.threshold env.timestamp env.rand)
            env.maskOpenOk env.maskReadOk).2,
          some (dcrMaskPath s.threshold env.timestamp env.rand))
    else (none, [], some (dcrMaskPath s.threshold env.timestamp env.rand))
  else (none, [], none)

/-- The try block of `executeDeepCR` (BB_DeepCosmicRay.js lines 213-377),
step by step in source order: wrapper check, active-window check, temp-file
allocation and export, command construction and process launch, supervision
with timeout, exit-code check, expected-output check, result load, result
application, optional mask load, success report. -/
def dcrTryBody (s : BBDeepCRSettings) (env : JobEnv) : TryOut :=
  if !env.wrapperExists then
    { err := some ("run_deepcr.sh wrapper script not found at: " ++ dcrWrapperScript),
      events := [], tempFile := none, cleanedPath := none, maskPath := none }
  else if !env.hasActiveWindow then
    { err := some "No active image window",
      events := [], tempFile := none, cleanedPath := none, maskPath := none }
  else
    let tempFile := dcrGenerateSecureTempFilename env.timestamp env.rand
    if !env.saveAsOk then
      { err := some "Failed to export to FITS",
        events := [], tempFile := some tempFile, cleanedPath := none, maskPath := none }
    else
      let cmd := dcrBuildCommandArray s tempFile
      match supervise env.finishedBy 600000 100 with
      | .finished _ =>
        if env.exitCode ≠ 0 then
          { err := some ("DeepCR failed with exit code " ++ toString env.exitCode),
            events := [.spawn cmd, .captured env.exitCode],
            tempFile := some tempFile, cleanedPath := none, maskPath := none }
        else
          let cleanedPath := dcrCleanedPath s.threshold env.timestamp env.rand
          if !env.cleanedExists then
            { err := some ("Cleaned image not found at: " ++ cleanedPath),
              events := [.spawn cmd, .captured env.exitCode],
              tempFile := some tempFile, cleanedPath := some cleanedPath, maskPath := none }
          else
            match (loadImage cleanedPath env.cleanedOpenOk env.cleanedReadOk).1 with
            | .error m =>
              { err := some m,
                events := [.spawn cmd, .captured env.exitCode] ++
                  (loadImage cleanedPath env.cleanedOpenOk env.cleanedReadOk).2,
                tempFile := some tempFile, cleanedPath := some cleanedPath, maskPath := none }
            | .ok _ =>
              match (dcrApplyStep s.replaceActive env.assignOk).1 with
              | some m =>
                { err := some m,
                  events := [.spawn cmd, .captured env.exitCode] ++
                    (loadImage cleanedPath env.cleanedOpenOk env.cleanedReadOk).2 ++
                    (dcrApplyStep s.replaceActive env.assignOk).2,
                  tempFile := some tempFile, cleanedPath := some cleanedPath, maskPath := none }
              | none =>
                match (dcrMaskStep s env).1 with
                | some m =>
                  { err := some m,
                    events := [.spawn cmd, .captured env.exitCode] ++
                      (loadImage cleanedPath env.cleanedOpenOk env.cleanedReadOk).2 ++
                      (dcrApplyStep s.replaceActive env.assignOk).2 ++
                      (dcrMaskStep s env).2.1,
                    tempFile := some tempFile, cleanedPath := some cleanedPath,
                    maskPath := (dcrMaskStep s env).2.2 }
                | none =>
                  { err := none,
                    events := [.spawn cmd, .captured env.exitCode] ++
                      (loadImage cleanedPath env.cleanedOpenOk env.cleanedReadOk).2 ++
                      (dcrApplyStep s.replaceActive env.assignOk).2 ++
                      (dcrMaskStep s env).2.1 ++ [.reportSuccess],
                    tempFile := some tempFile, cleanedPath := some cleanedPath,
                    maskPath := (dcrMaskStep s env).2.2 }
      | _ =>
        { err := some "Processing timed out after 10 minutes",
          events := [.spawn cmd, .kill],
          tempFile := some tempFile, cleanedPath := none, maskPath := none }

/-- The cleanup code shared by the finally block of BB_DeepCosmicRay.js
(lines 390-408) and `cleanupTempFiles` of BB-Astro_LAcosmic.js (lines
222-233): each non-null recorded path that still exists on disk is removed.
Disk presence at cleanup time: the exported input exists when the export
succeeded; the tool outputs exist when the environment says the tool left
them. -/
def jobCleanupList (o : TryOut) (env : JobEnv) : List String :=
  (match o.tempFile with
    | some p => if env.saveAsOk then [p] else []
    | none => []) ++
  (match o.cleanedPath with
    | some p => if env.cleanedExists then [p] else []
    | none => []) ++
  (match o.maskPath with
    | some p => if env.maskExists then [p] else []
    | none => [])

/-- `executeDeepCR` of BB_DeepCosmicRay.js (lines 208-409): the try block,
then the catch block (which shows the error message box), then the finally
block (which performs the cleanup). -/
def executeDeepCR (s : BBDeepCRSettings) (env : JobEnv) : RunResult :=
  let o := dcrTryBody s env
  { outcome := o.err,
    trace := o.events ++
      (match o.err with
        | some m => [Ev.reportError m]
        | none => []) ++
      [Ev.cleanup (jobCleanupList o env)] }

/-- The result-application step of BB-Astro_LAcosmic.js (lines 335-355),
with the same bracket structure as the DeepCR one. -/
def lacApplyStep (replaceActive assignOk : Bool) : Option String × List Ev :=
  if replaceActive then
    if assignOk then (none, [.beginTarget, .assignTarget, .endTarget])
    else (some "Host exception while assigning the target image", [.beginTarget])
  else
    if assignOk then (none, [.newWindow "_LACosmic"])
    else (some "Host exception while assigning the new image window", [])

/-- The mask-loading step of BB-Astro_LAcosmic.js (lines 358-375): entered
only when the mask was requested and the file exists. -/
def lacMaskStep (s : BBLACosmicSettings) (env : JobEnv) : Option String × List Ev :=
  if s.saveMask && env.maskExists then
    match (loadFITSImage (lacMaskPath env.timestamp env.rand)
        env.maskOpenOk env.maskReadOk).1 with
    | .ok _ =>
      (none, (loadFITSImage (lacMaskPath env.timestamp env.rand)
        env.maskOpenOk env.maskReadOk).2 ++ [.maskWindow "_LACosmic_mask"])
    | .error m =>
      (some m, (loadFITSImage (lacMaskPath env.timestamp env.rand)
        env.maskOpenOk env.maskReadOk).2)
  else (none, [])

/-- The try block of `executeCosmicRayRemoval` (BB-Astro_LAcosmic.js lines
241-384) up to but not including the success-path cleanup call: the wrapper
check, active-window check, export, launch, supervision, exit-code check,
output check, result load, result application and mask load.  Both output
path variables are assigned together (lines 324-325) right after the
exit-code check. -/
def lacTryBody (s : BBLACosmicSettings) (env : JobEnv) : TryOut :=
  if !env.wrapperExists then
    { err := some ("run_lacosmic.sh wrapper script not found at: " ++ lacWrapperScript),
      events := [], tempFile := none, cleanedPath := none, maskPath := none }
  else if !env.hasActiveWindow then
    { err := some "No active image window",
      events := [], tempFile := none, cleanedPath := none, maskPath := none }
  else
    let tempFile := lacGenerateSecureTempFilename env.timestamp env.rand
    if !env.saveAsOk then
      { err := some "Failed to export to FITS",
        events := [], tempFile := some tempFile, cleanedPath := none, maskPath := none }
    else
      let cmd := lacBuildCommandArray s tempFile
      match supervise env.finishedBy 600000 100 with
      | .finished _ =>
        if env.exitCode ≠ 0 then
          { err := some ("L.A.Cosmic failed with exit code " ++ toString env.exitCode),
            events := [.spawn cmd, .captured env.exitCode],
            tempFile := some tempFile, cleanedPath := none, maskPath := none }
        else
          let outputPath := lacOutputPath env.timestamp env.rand
          let maskPath := lacMaskPath env.timestamp env.rand
          if !env.cleanedExists then
            { err := some ("Output file not found: " ++ outputPath),
              events := [.spawn cmd, .captured env.exitCode],
              tempFile := some tempFile, cleanedPath := some outputPath, maskPath := some maskPath }
          else
            match (loadFITSImage outputPath env.cleanedOpenOk env.cleanedReadOk).1 with
            | .error m =>
              { err := some m,
                events := [.spawn cmd, .captured env.exitCode] ++
                  (loadFITSImage outputPath env.cleanedOpenOk env.cleanedReadOk).2,
                tempFile := some tempFile, cleanedPath := some outputPath, maskPath := some maskPath }
            | .ok _ =>
              match (lacApplyStep s.replaceActive env.assignOk).1 with
              | some m =>
                { err := some m,
                  events := [.spawn cmd, .captured env.exitCode] ++
                    (loadFITSImage outputPath env.cleanedOpenOk env.cleanedReadOk).2 ++
                    (lacApplyStep s.replaceActive env.assignOk).2,
                  tempFile := some tempFile, cleanedPath := some outputPath, maskPath := some maskPath }
              | none =>
                match (lacMaskStep s env).1 with
                | some m =>
                  { err := some m,
                    events := [.spawn cmd, .captured env.exitCode] ++
                      (loadFITSImage outputPath env.cleanedOpenOk env.cleanedReadOk).2 ++
                      (lacApplyStep s.replaceActive env.assignOk).2 ++
                      (lacMaskStep s env).2,
                    tempFile := some tempFile, cleanedPath := some outputPath, maskPath := some maskPath }
                | none =>
                  { err := none,
                    events := [.spawn cmd, .captured env.exitCode] ++
                      (loadFITSImage outputPath env.cleanedOpenOk env.cleanedReadOk).2 ++
                      (lacApplyStep s.replaceActive env.assignOk).2 ++
                      (lacMaskStep s env).2,
                    tempFile := some tempFile, cleanedPath := some outputPath, maskPath := some maskPath }
      | _ =>
        { err := some "Processing timed out after 10 minutes",
          events := [.spawn cmd, .kill],
          tempFile := some tempFile, cleanedPath := none, maskPath := none }

/-- `executeCosmicRayRemoval` of BB-Astro_LAcosmic.js (lines 235-398).  On
success, `cleanupTempFiles` runs at the end of the try block (line 378)
before the success summary; on an exception the catch block runs
`cleanupTempFiles` (line 389) before showing the error message box. -/
def executeCosmicRayRemoval (s : BBLACosmicSettings) (env : JobEnv) : RunResult :=
  let o := lacTryBody s env
  { outcome := o.err,
    trace := o.events ++ [Ev.cleanup (jobCleanupList o env)] ++
      (match o.err with
        | some m => [Ev.reportError m]
        | none => [Ev.reportSuccess]) }

/-- Host environment of one CosmeticCorrection job. -/
structure CCEnv : Type where
  saveAsOk : Bool
  execOk : Bool
  outputExists : Bool
  openOk : Bool
  assignOk : Bool
  timestamp : Nat

/-- The try block of `applyCosmeticCorrection` (BB_CosmeticCorrection.js
lines 432-534): export, configuration of the CosmeticCorrection instance
(icon or auto mode; no observable difference in this model), global
execution, expected-output check, reload, application to the target view
under `beginProcess`/`endProcess`, and the success message box.  The data
record `d` only feeds the host process configuration, which is opaque here. -/
def ccTryBody (_d : CCData) (env : CCEnv) : Option String × List Ev :=
  if !env.saveAsOk then (some "Failed to save temporary input file", [])
  else if !env.execOk then
    (some "CosmeticCorrection execution failed", [.execGlobal])
  else if !env.outputExists then
    (some ("Output file not found: " ++ ccTempOutputFile env.timestamp), [.execGlobal])
  else if !env.openOk then
    (some "Failed to open corrected image",
      [.execGlobal, .fileOpen (ccTempOutputFile env.timestamp)])
  else if env.assignOk then
    (none, [.execGlobal, .fileOpen (ccTempOutputFile env.timestamp),
      .beginTarget, .assignTarget, .endTarget, .reportSuccess])
  else
    (some "Host exception while assigning the target image",
      [.execGlobal, .fileOpen (ccTempOutputFile env.timestamp), .beginTarget])

/-- `applyCosmeticCorrection` of BB_CosmeticCorrection.js (lines 413-566):
try block, catch block (error message box), then the finally block removing
whichever of the two temp files exist. -/
def applyCosmeticCorrection (d : CCData) (env : CCEnv) : RunResult :=
  let o := ccTryBody d env
  { outcome := o.1,
    trace := o.2 ++
      (match o.1 with
        | some m => [Ev.reportError m]
        | none => []) ++
      [Ev.cleanup ((if env.saveAsOk then [ccTempInputFile env.timestamp] else []) ++
        (if env.outputExists then [ccTempOutputFile env.timestamp] else []))] }

/-- Dialog state relevant to execution gating in BB_DeepCosmicRay.js: the
settings plus the validation flag for the threshold field. -/
structure DCRDialogState : Type where
  s : BBDeepCRSettings
  validThreshold : Bool

/-- `thresholdEdit.onTextUpdated` of BB_DeepCosmicRay.js (lines 536-552):
a parsed value outside (0, 1] marks the field invalid and leaves the stored
threshold unchanged; a valid value is stored and switches the preset to
custom.  (`NaN` input is not representable over the rationals; it falls in
the invalid branch in the source.) -/
def dcrOnThresholdTextUpdated (d : DCRDialogState) (v : ℚ) : DCRDialogState :=
  if v ≤ 0 ∨ 1 < v then { d with validThreshold := false }
  else { s := { d.s with threshold := v, preset := "custom" }, validThreshold := true }

/-- `executeButton.onClick` of BB_DeepCosmicRay.js (lines 580-596): when the
threshold validation state is invalid a warning box is shown and the
pipeline is not entered (`none`); otherwise the dialog closes and
`executeDeepCR` runs. -/
def dcrExecuteClick (d : DCRDialogState) (env : JobEnv) : Option RunResult :=
  if d.validThreshold then some (executeDeepCR d.s env) else none

/-- The non-interactive entry of `main` in BB_DeepCosmicRay.js (lines
728-740): when executed on a view target, the saved parameters are imported
over the current settings and `executeDeepCR` runs directly, with no dialog
and no validation. -/
def dcrMainViewTarget (t : ParamTable) (s : BBDeepCRSettings) (env : JobEnv) : RunResult :=
  executeDeepCR (dcrImportParameters t s) env

/-- Whether an event is the cleanup call. -/
def Ev.isCleanup : Ev → Bool
  | .cleanup _ => true
  | _ => false

/-- Whether an event reports the job outcome (error message box or success
notification). -/
def Ev.isReport : Ev → Bool
  | .reportError _ => true
  | .reportSuccess => true
  | _ => false

/-- Number of cleanup calls in a trace. -/
def cleanupCount (tr : List Ev) : Nat := tr.countP fun e => e.isCleanup

/-- True when no outcome report precedes the first cleanup call. -/
def noReportBeforeCleanup (tr : List Ev) : Bool :=
  (tr.takeWhile fun e => !e.isCleanup).all fun e => !e.isReport

/-- All files removed by cleanup calls in a trace. -/
def cleanupRemoved (tr : List Ev) : List String :=
  tr.foldr (fun e acc =>
    match e with
    | .cleanup l => l ++ acc
    | _ => acc) []

/-- The cleanup contract claimed for one job trace: cleanup runs exactly
once, before the outcome is reported, and removes every temp artifact the
job created (given as `artifacts`). -/
def cleanupClaimAt (tr : List Ev) (artifacts : List String) : Prop :=
  cleanupCount tr = 1 ∧ noReportBeforeCleanup tr = true ∧
    ∀ a ∈ artifacts, a ∈ cleanupRemoved tr

/-- The collision-freedom property claimed of a temp-path allocator, seen as
a function of the current millisecond timestamp and the job's random draw:
within one millisecond, distinct draws give distinct paths. -/
def sameMillisDistinct (alloc : Nat → String → String) : Prop :=
  ∀ t r1 r2, r1 ≠ r2 → alloc t r1 ≠ alloc t r2

/-- Base host environment for concrete runs: every host operation succeeds,
the process terminates at the first poll with exit code 0, the expected
primary output exists, the mask does not. -/
def envOk : JobEnv :=
  { wrapperExists := true, hasActiveWindow := true, saveAsOk := true,
    finishedBy := fun _ => true, exitCode := 0,
    cleanedExists := true, cleanedOpenOk := true, cleanedReadOk := true,
    assignOk := true, maskExists := false, maskOpenOk := true, maskReadOk := true,
    timestamp := 7, rand := "k3j9q" }

/-- Concrete DeepCR settings for witnesses and counterexamples.  Integer
rational values are used because kernel evaluation of rational literals
built by division is blocked by gcd normalization. -/
def sDCR : BBDeepCRSettings :=
  { model := "WFC3-UVIS", threshold := 1, preset := "optimal",
    saveMask := false, replaceActive := false }

/-- Concrete LAcosmic settings for witnesses and counterexamples. -/
def sLAC : BBLACosmicSettings :=
  { sigclip := 2, objlim := 2, readnoise := 9, gain := 1, niter := 6,
    cleantype := "meanmask", saveMask := false, replaceActive := false,
    sigfrac := 1, sepmed := true, fsmode := "median", psfmodel := "gauss",
    psffwhm := 2, psfsize := 7, psfbeta := 5, satlevel := 65535 }

/-- Base host environment for concrete CosmeticCorrection runs. -/
def envCC : CCEnv :=
  { saveAsOk := true, execOk := true, outputExists := true, openOk := true,
    assignOk := true, timestamp := 7 }

theorem str_data_append (a b : String) : (a ++ b).data = a.data ++ b.data := by
  cases a; cases b; rfl

theorem str_eq_of_data (a b : String) (h : a.data = b.data) : a = b := by
  cases a; cases b; exact congrArg String.mk h

theorem isSuffixOf_extend (l x y : List Char) (h : l.isSuffixOf x = true) :
    l.isSuffixOf (y ++ x) = true := by
  rw [List.isSuffixOf_iff_suffix] at h ⊢
  exact h.trans (List.suffix_append y x)

theorem strToLower_append (a b : String) :
    strToLower (a ++ b) = strToLower a ++ strToLower b := by
  apply str_eq_of_data
  simp [strToLower, str_data_append]

theorem strEndsWith_extend (a b sfx : String) (h : strEndsWith b sfx = true) :
    strEndsWith (a ++ b) sfx = true := by
  unfold strEndsWith at h ⊢
  rw [str_data_append]
  exact isSuffixOf_extend _ _ _ h

theorem dcrDetectFormat_xisf_ext (a b : String)
    (h : strEndsWith (strToLower b) ".xisf" = true) :
    dcrDetectFormat (a ++ b) = some ".xisf" := by
  unfold dcrDetectFormat
  rw [strToLower_append, strEndsWith_extend _ _ _ h]
  simp

theorem dcrDetectFormat_cleanedPath (th : ℚ) (t : Nat) (r : String) :
    dcrDetectFormat (dcrCleanedPath th t r) = some ".xisf" := by
  unfold dcrCleanedPath
  exact dcrDetectFormat_xisf_ext _ _ (by decide)

theorem dcrDetectFormat_maskPath (th : ℚ) (t : Nat) (r : String) :
    dcrDetectFormat (dcrMaskPath th t r) = some ".xisf" := by
  unfold dcrMaskPath
  exact dcrDetectFormat_xisf_ext _ _ (by decide)

theorem superviseAux_timeout (fb : Nat → Bool) (tMs pMs : Nat)
    (hnf : ∀ t, fb t = false) :
    ∀ fuel elapsed, elapsed ≤ tMs → tMs < elapsed + fuel * pMs →
      ∃ e, superviseAux fb tMs pMs fuel elapsed = .timedOut e ∧
        tMs < e ∧ e ≤ tMs + pMs := by
  intro fuel
  induction fuel with
  | zero => intro elapsed h1 h2; omega
  | succ n ih =>
    intro elapsed h1 h2
    simp only [superviseAux, hnf (elapsed + pMs), Bool.false_eq_true, if_false]
    by_cases hc : tMs < elapsed + pMs
    · exact ⟨elapsed + pMs, by rw [if_pos hc], hc, by omega⟩
    · rw [if_neg hc]
      refine ih (elapsed + pMs) (by omega) ?_
      have h3 : (n + 1) * pMs = n * pMs + pMs := by ring
      omega

theorem supervise_timeout (fb : Nat → Bool) (tMs pMs : Nat) (hp : 0 < pMs)
    (hnf : ∀ t, fb t = false) :
    ∃ e, supervise fb tMs pMs = .timedOut e ∧ tMs < e ∧ e ≤ tMs + pMs := by
  refine superviseAux_timeout fb tMs pMs hnf _ 0 (Nat.zero_le _) ?_
  have h2 : tMs % pMs < pMs := Nat.mod_lt _ hp
  calc tMs = pMs * (tMs / pMs) + tMs % pMs := (Nat.div_add_mod tMs pMs).symm
    _ < pMs * (tMs / pMs) + pMs := Nat.add_lt_add_left h2 _
    _ = (tMs / pMs + 1) * pMs := by ring
    _ = 0 + (tMs / pMs + 1) * pMs := (Nat.zero_add _).symm

theorem superviseAux_ne_fuelOut (fb : Nat → Bool) (tMs pMs : Nat) :
    ∀ fuel elapsed, elapsed ≤ tMs → tMs < elapsed + fuel * pMs →
      superviseAux fb tMs pMs fuel elapsed ≠ .fuelOut := by
  intro fuel
  induction fuel with
  | zero => intro elapsed h1 h2; omega
  | succ n ih =>
    intro elapsed h1 h2
    simp only [superviseAux]
    by_cases hf : fb (elapsed + pMs)
    · simp [hf]
    · simp only [hf, Bool.false_eq_true, if_false]
      by_cases hc : tMs < elapsed + pMs
      · simp [hc]
      · rw [if_neg hc]
        refine ih (elapsed + pMs) (by omega) ?_
        have h3 : (n + 1) * pMs = n * pMs + pMs := by ring
        omega

/-- The fuelled supervision loop never exhausts its fuel: it always ends in
`finished` or `timedOut`. -/
theorem supervise_total (fb : Nat → Bool) (tMs pMs : Nat) (hp : 0 < pMs) :
    supervise fb tMs pMs ≠ .fuelOut := by
  refine superviseAux_ne_fuelOut fb tMs pMs _ 0 (Nat.zero_le _) ?_
  have h2 : tMs % pMs < pMs := Nat.mod_lt _ hp
  calc tMs = pMs * (tMs / pMs) + tMs % pMs := (Nat.div_add_mod tMs pMs).symm
    _ < pMs * (tMs / pMs) + pMs := Nat.add_lt_add_left h2 _
    _ = (tMs / pMs + 1) * pMs := by ring
    _ = 0 + (tMs / pMs + 1) * pMs := (Nat.zero_add _).symm

theorem loadImage_events (p : String) (a b : Bool) :
    (loadImage p a b).2 = [] ∨ (loadImage p a b).2 = [Ev.fileOpen p] ∨
      (loadImage p a b).2 = [Ev.fileOpen p, Ev.fileRead p] := by
  unfold loadImage
  split
  · simp
  · split_ifs <;> simp

theorem mem_loadImage (p : String) (a b : Bool) (e : Ev)
    (h : e ∈ (loadImage p a b).2) : e = .fileOpen p ∨ e = .fileRead p := by
  rcases loadImage_events p a b with h2 | h2 | h2 <;> rw [h2] at h <;> simp_all

theorem loadFITSImage_events (p : String) (a b : Bool) :
    (loadFITSImage p a b).2 = [Ev.fileOpen p] ∨
      (loadFITSImage p a b).2 = [Ev.fileOpen p, Ev.fileRead p] := by
  unfold loadFITSImage
  split_ifs <;> simp

theorem mem_loadFITSImage (p : String) (a b : Bool) (e : Ev)
    (h : e ∈ (loadFITSImage p a b).2) : e = .fileOpen p ∨ e = .fileRead p := by
  rcases loadFITSImage_events p a b with h2 | h2 <;> rw [h2] at h <;> simp_all

theorem dcrApplyStep_cases (ra ao : Bool) :
    dcrApplyStep ra ao = (none, [.beginTarget, .assignTarget, .endTarget]) ∨
    dcrApplyStep ra ao =
      (some "Host exception while assigning the target image", [.beginTarget]) ∨
    dcrApplyStep ra ao = (none, [.newWindow "_DeepCR"]) ∨
    dcrApplyStep ra ao =
      (some "Host exception while assigning the new image window", []) := by
  unfold dcrApplyStep
  split_ifs <;> simp

theorem lacApplyStep_cases (ra ao : Bool) :
    lacApplyStep ra ao = (none, [.beginTarget, .assignTarget, .endTarget]) ∨
    lacApplyStep ra ao =
      (some "Host exception while assigning the target image", [.beginTarget]) ∨
    lacApplyStep ra ao = (none, [.newWindow "_LACosmic"]) ∨
    lacApplyStep ra ao =
      (some "Host exception while assigning the new image window", []) := by
  unfold lacApplyStep
  split_ifs <;> simp

theorem dcrMaskStep_events (s : BBDeepCRSettings) (env : JobEnv) :
    (dcrMaskStep s env).2.1 = [] ∨
    (dcrMaskStep s env).2.1 =
      (loadImage (dcrMaskPath s.threshold env.timestamp env.rand)
        env.maskOpenOk env.maskReadOk).2 ∨
    (dcrMaskStep s env).2.1 =
      (loadImage (dcrMaskPath s.threshold env.timestamp env.rand)
        env.maskOpenOk env.maskReadOk).2 ++ [.maskWindow "_CR_Mask"] := by
  unfold dcrMaskStep
  split_ifs
  · split <;> simp
  · simp
  · simp

theorem mem_dcrMaskStep (s : BBDeepCRSettings) (env : JobEnv) (e : Ev)
    (h : e ∈ (dcrMaskStep s env).2.1) :
    e = .fileOpen (dcrMaskPath s.threshold env.timestamp env.rand) ∨
    e = .fileRead (dcrMaskPath s.threshold env.timestamp env.rand) ∨
    e = .maskWindow "_CR_Mask" := by
  rcases dcrMaskStep_events s env with h2 | h2 | h2 <;> rw [h2] at h
  · simp_all
  · rcases mem_loadImage _ _ _ _ h with h3 | h3 <;> simp_all
  · rw [List.mem_append] at h
    rcases h with h | h
    · rcases mem_loadImage _ _ _ _ h with h3 | h3 <;> simp_all
    · simp_all

theorem lacMaskStep_events (s : BBLACosmicSettings) (env : JobEnv) :
    (lacMaskStep s env).2 = [] ∨
    (lacMaskStep s env).2 =
      (loadFITSImage (lacMaskPath env.timestamp env.rand)
        env.maskOpenOk env.maskReadOk).2 ∨
    (lacMaskStep s env).2 =
      (loadFITSImage (lacMaskPath env.timestamp env.rand)
        env.maskOpenOk env.maskReadOk).2 ++ [.maskWindow "_LACosmic_mask"] := by
  unfold lacMaskStep
  split_ifs
  · split <;> simp
  · simp

theorem mem_lacMaskStep (s : BBLACosmicSettings) (env : JobEnv) (e : Ev)
    (h : e ∈ (lacMaskStep s env).2) :
    e = .fileOpen (lacMaskPath env.timestamp env.rand) ∨
    e = .fileRead (lacMaskPath env.timestamp env.rand) ∨
    e = .maskWindow "_LACosmic_mask" := by
  rcases lacMaskStep_events s env with h2 | h2 | h2 <;> rw [h2] at h
  · simp_all
  · rcases mem_loadFITSImage _ _ _ _ h with h3 | h3 <;> simp_all
  · rw [List.mem_append] at h
    rcases h with h | h
    · rcases mem_loadFITSImage _ _ _ _ h with h3 | h3 <;> simp_all
    · simp_all

theorem loadImage_ok (p f : String) (h : dcrDetectFormat p = some f) :
    loadImage p true true = (.ok (), [.fileOpen p, .fileRead p]) := by
  unfold loadImage
  rw [h]
  simp

theorem loadImage_all (p : String) (a b : Bool) (f : Ev → Bool)
    (h1 : f (.fileOpen p) = true) (h2 : f (.fileRead p) = true) :
    ((loadImage p a b).2.all f) = true := by
  rcases loadImage_events p a b with h | h | h <;> rw [h] <;> simp [h1, h2]

theorem loadFITSImage_all (p : String) (a b : Bool) (f : Ev → Bool)
    (h1 : f (.fileOpen p) = true) (h2 : f (.fileRead p) = true) :
    ((loadFITSImage p a b).2.all f) = true := by
  rcases loadFITSImage_events p a b with h | h <;> rw [h] <;> simp [h1, h2]

theorem dcrApplyStep_all (ra ao : Bool) (f : Ev → Bool)
    (h1 : f .beginTarget = true) (h2 : f .assignTarget = true)
    (h3 : f .endTarget = true) (h4 : f (.newWindow "_DeepCR") = true) :
    ((dcrApplyStep ra ao).2.all f) = true := by
  rcases dcrApplyStep_cases ra ao with h | h | h | h <;> rw [h] <;> simp [h1, h2, h3, h4]

theorem lacApplyStep_all (ra ao : Bool) (f : Ev → Bool)
    (h1 : f .beginTarget = true) (h2 : f .assignTarget = true)
    (h3 : f .endTarget = true) (h4 : f (.newWindow "_LACosmic") = true) :
    ((lacApplyStep ra ao).2.all f) = true := by
  rcases lacApplyStep_cases ra ao with h | h | h | h <;> rw [h] <;> simp [h1, h2, h3, h4]

theorem dcrMaskStep_all (s : BBDeepCRSettings) (env : JobEnv) (f : Ev → Bool)
    (h1 : ∀ p, f (.fileOpen p) = true) (h2 : ∀ p, f (.fileRead p) = true)
    (h3 : f (.maskWindow "_CR_Mask") = true) :
    ((dcrMaskStep s env).2.1.all f) = true := by
  rcases dcrMaskStep_events s env with h | h | h <;> rw [h]
  · rfl
  · exact loadImage_all _ _ _ f (h1 _) (h2 _)
  · simp [List.all_append, loadImage_all _ _ _ f (h1 _) (h2 _), h3]

theorem lacMaskStep_all (s : BBLACosmicSettings) (env : JobEnv) (f : Ev → Bool)
    (h1 : ∀ p, f (.fileOpen p) = true) (h2 : ∀ p, f (.fileRead p) = true)
    (h3 : f (.maskWindow "_LACosmic_mask") = true) :
    ((lacMaskStep s env).2.all f) = true := by
  rcases lacMaskStep_events s env with h | h | h <;> rw [h]
  · rfl
  · exact loadFITSImage_all _ _ _ f (h1 _) (h2 _)
  · simp [List.all_append, loadFITSImage_all _ _ _ f (h1 _) (h2 _), h3]

set_option maxHeartbeats 2000000 in
theorem dcrTryBody_all (s : BBDeepCRSettings) (env : JobEnv) (f : Ev → Bool)
    (hspawn : ∀ c, f (.spawn c) = true) (hkill : f .kill = true)
    (hcap : ∀ c, f (.captured c) = true)
    (hopen : ∀ p, f (.fileOpen p) = true) (hread : ∀ p, f (.fileRead p) = true)
    (hbegin : f .beginTarget = true) (hassign : f .assignTarget = true)
    (hend : f .endTarget = true) (hnw : f (.newWindow "_DeepCR") = true)
    (hmw : f (.maskWindow "_CR_Mask") = true) (hrs : f .reportSuccess = true) :
    ((dcrTryBody s env).events.all f) = true := by
  have hl := loadImage_all (dcrCleanedPath s.threshold env.timestamp env.rand)
    env.cleanedOpenOk env.cleanedReadOk f (hopen _) (hread _)
  have ha := dcrApplyStep_all s.replaceActive env.assignOk f hbegin hassign hend hnw
  have hm := dcrMaskStep_all s env f hopen hread hmw
  unfold dcrTryBody
  split_ifs <;> (repeat' split) <;>
    (try simp_all [List.all_append, hspawn, hkill, hcap, hrs]) <;>
    (cases hL : (loadImage (dcrCleanedPath s.threshold env.timestamp env.rand)
        env.cleanedOpenOk env.cleanedReadOk).1) <;>
    simp_all [List.all_append, hspawn, hkill, hcap, hrs] <;> aesop

set_option maxHeartbeats 2000000 in
theorem lacTryBody_all (s : BBLACosmicSettings) (env : JobEnv) (f : Ev → Bool)
    (hspawn : ∀ c, f (.spawn c) = true) (hkill : f .kill = true)
    (hcap : ∀ c, f (.captured c) = true)
    (hopen : ∀ p, f (.fileOpen p) = true) (hread : ∀ p, f (.fileRead p) = true)
    (hbegin : f .beginTarget = true) (hassign : f .assignTarget = true)
    (hend : f .endTarget = true) (hnw : f (.newWindow "_LACosmic") = true)
    (hmw : f (.maskWindow "_LACosmic_mask") = true) :
    ((lacTryBody s env).events.all f) = true := by
  have hl := loadFITSImage_all (lacOutputPath env.timestamp env.rand)
    env.cleanedOpenOk env.cleanedReadOk f (hopen _) (hread _)
  have ha := lacApplyStep_all s.replaceActive env.assignOk f hbegin hassign hend hnw
  have hm := lacMaskStep_all s env f hopen hread hmw
  unfold lacTryBody
  split_ifs <;> (repeat' split) <;>
    (try simp_all [List.all_append, hspawn, hkill, hcap]) <;>
    (cases hL : (loadFITSImage (lacOutputPath env.timestamp env.rand)
        env.cleanedOpenOk env.cleanedReadOk).1) <;>
    simp_all [List.all_append, hspawn, hkill, hcap] <;> aesop

theorem countP_eq_zero_of_all (l : List Ev) (p : Ev → Bool)
    (h : (l.all fun e => !p e) = true) : l.countP p = 0 := by
  rw [List.countP_eq_zero]
  intro a ha
  have h2 := List.all_eq_true.mp h a ha
  simp at h2
  simp [h2]

theorem dcrTryBody_cleanupFree (s : BBDeepCRSettings) (env : JobEnv) :
    cleanupCount (dcrTryBody s env).events = 0 := by
  apply countP_eq_zero_of_all
  exact dcrTryBody_all s env (fun e => !e.isCleanup)
    (fun _ => rfl) rfl (fun _ => rfl) (fun _ => rfl) (fun _ => rfl)
    rfl rfl rfl rfl rfl rfl

theorem lacTryBody_tame (s : BBLACosmicSettings) (env : JobEnv) :
    ((lacTryBody s env).events.all fun e => !e.isCleanup && !e.isReport) = true :=
  lacTryBody_all s env (fun e => !e.isCleanup && !e.isReport)
    (fun _ => rfl) rfl (fun _ => rfl) (fun _ => rfl) (fun _ => rfl)
    rfl rfl rfl rfl rfl

theorem ccTryBody_cleanupFree (d : CCData) (env : CCEnv) :
    ((ccTryBody d env).2.all fun e => !e.isCleanup) = true := by
  unfold ccTryBody
  split_ifs <;> rfl

theorem noReportBeforeCleanup_build (l rest : List Ev) (x : List String)
    (h : (l.all fun e => !e.isCleanup && !e.isReport) = true) :
    noReportBeforeCleanup (l ++ Ev.cleanup x :: rest) = true := by
  unfold noReportBeforeCleanup
  induction l with
  | nil => rfl
  | cons a as ih =>
    simp only [List.all_cons, Bool.and_eq_true] at h
    obtain ⟨⟨h1, h2⟩, hrest⟩ := h
    simp only [List.cons_append, List.takeWhile_cons, h1, if_true, List.all_cons, h2,
      Bool.true_and]
    exact ih hrest

theorem cleanupCount_wrap (evs mid : List Ev) (x : List String)
    (h1 : evs.countP (fun e => e.isCleanup) = 0)
    (h2 : mid.countP (fun e => e.isCleanup) = 0) :
    cleanupCount (evs ++ mid ++ [Ev.cleanup x]) = 1 := by
  unfold cleanupCount
  rw [List.countP_append, List.countP_append, h1, h2]
  rfl

theorem cleanupCount_wrap2 (evs mid : List Ev) (x : List String)
    (h1 : evs.countP (fun e => e.isCleanup) = 0)
    (h2 : mid.countP (fun e => e.isCleanup) = 0) :
    cleanupCount (evs ++ [Ev.cleanup x] ++ mid) = 1 := by
  unfold cleanupCount
  rw [List.countP_append, List.countP_append, h1, h2]
  rfl

theorem lacTryBody_cleanupFree (s : BBLACosmicSettings) (env : JobEnv) :
    ((lacTryBody s env).events.countP fun e => e.isCleanup) = 0 := by
  apply countP_eq_zero_of_all
  have h := lacTryBody_tame s env
  rw [List.all_eq_true] at h ⊢
  intro e he
  have h3 := h e he
  simp only [Bool.and_eq_true] at h3
  exact h3.1

/-- Claim C1, amended.  On every exit path of each of the three pipelines the
cleanup routine runs exactly once.  In the LAcosmic script it also runs
before the job outcome is reported; in the DeepCosmicRay and
CosmeticCorrection scripts the outcome (error message box or success
notification) is reported before cleanup runs, and cleanup only attempts the
artifacts whose path variables were assigned before the exit, so the claim's
ordering and completeness parts fail there (see the counterexample). -/
theorem C1_cleanup_exactly_once :
    (∀ s env, cleanupCount (executeDeepCR s env).trace = 1) ∧
    (∀ s env, cleanupCount (executeCosmicRayRemoval s env).trace = 1 ∧
      noReportBeforeCleanup (executeCosmicRayRemoval s env).trace = true) ∧
    (∀ d env, cleanupCount (applyCosmeticCorrection d env).trace = 1) ∧
    (∀ s env m, (executeDeepCR s env).outcome = some m →
      ∃ pre l, (executeDeepCR s env).trace =
        pre ++ [Ev.reportError m, Ev.cleanup l]) ∧
    (∀ d env m, (applyCosmeticCorrection d env).outcome = some m →
      ∃ pre l, (applyCosmeticCorrection d env).trace =
        pre ++ [Ev.reportError m, Ev.cleanup l]) := by
  refine ⟨?_, ?_, ?_, ?_, ?_⟩
  · intro s env
    refine cleanupCount_wrap _ _ _ (dcrTryBody_cleanupFree s env) ?_
    cases hE : (dcrTryBody s env).err <;> rfl
  · intro s env
    constructor
    · refine cleanupCount_wrap2 _ _ _ (lacTryBody_cleanupFree s env) ?_
      cases hE : (lacTryBody s env).err <;> rfl
    · show noReportBeforeCleanup
        ((lacTryBody s env).events ++
          [Ev.cleanup (jobCleanupList (lacTryBody s env) env)] ++
          (match (lacTryBody s env).err with
            | some m => [Ev.reportError m]
            | none => [Ev.reportSuccess])) = true
      rw [List.append_assoc, List.singleton_append]
      exact noReportBeforeCleanup_build _ _ _ (lacTryBody_tame s env)
  · intro d env
    refine cleanupCount_wrap _ _ _
      (countP_eq_zero_of_all _ _ (ccTryBody_cleanupFree d env)) ?_
    cases hE : (ccTryBody d env).1 <;> rfl
  · intro s env m h
    have hE : (dcrTryBody s env).err = some m := h
    exact ⟨(dcrTryBody s env).events, jobCleanupList (dcrTryBody s env) env,
      by simp [executeDeepCR, hE]⟩
  · intro d env m h
    have hE : (ccTryBody d env).1 = some m := h
    exact ⟨(ccTryBody d env).2,
      (if env.saveAsOk then [ccTempInputFile env.timestamp] else []) ++
        (if env.outputExists then [ccTempOutputFile env.timestamp] else []),
      by simp [applyCosmeticCorrection, hE]⟩

/-- Witness for the amended C1 theorem: in a concrete failing DeepCR run the
error report is immediately followed by the single final cleanup event. -/
theorem C1_witness :
    cleanupCount (executeDeepCR sDCR { envOk with exitCode := 1 }).trace = 1 ∧
    ∃ pre l, (executeDeepCR sDCR { envOk with exitCode := 1 }).trace =
      pre ++ [Ev.reportError ("DeepCR failed with exit code " ++ toString (1 : Int)),
        Ev.cleanup l] :=
  ⟨C1_cleanup_exactly_once.1 sDCR { envOk with exitCode := 1 },
    C1_cleanup_exactly_once.2.2.2.1 sDCR { envOk with exitCode := 1 } _ (by decide)⟩

set_option maxHeartbeats 2000000 in
/-- Claim C1, counterexample.  A DeepCR job whose tool wrote the cleaned
output and then exited nonzero: the error box is shown before the finally
block runs, and cleanup only removes the exported input — the cleaned output
exists on disk but its path variable was never assigned, so its removal is
not attempted.  The claimed contract fails at this input. -/
theorem C1_counterexample :
    ¬ cleanupClaimAt (executeDeepCR sDCR { envOk with exitCode := 1 }).trace
      [dcrGenerateSecureTempFilename 7 "k3j9q", dcrCleanedPath 1 7 "k3j9q"] := by
  unfold cleanupClaimAt
  decide

theorem loadImage_cases (p : String) (a b : Bool) :
    loadImage p a b = (.error ("Unsupported image format: " ++ p), []) ∨
    loadImage p a b = (.error ("Cannot open image file: " ++ p), [.fileOpen p]) ∨
    loadImage p a b =
      (.error ("Cannot read image: " ++ p), [.fileOpen p, .fileRead p]) ∨
    loadImage p a b = (.ok (), [.fileOpen p, .fileRead p]) := by
  unfold loadImage
  split
  · simp
  · split_ifs <;> simp

theorem loadFITSImage_cases (p : String) (a b : Bool) :
    loadFITSImage p a b = (.error ("Cannot open FITS file: " ++ p), [.fileOpen p]) ∨
    loadFITSImage p a b =
      (.error ("Cannot read FITS image: " ++ p), [.fileOpen p, .fileRead p]) ∨
    loadFITSImage p a b = (.ok (), [.fileOpen p, .fileRead p]) := by
  unfold loadFITSImage
  split_ifs <;> simp

theorem assign_not_mem_dcrMaskStep (s : BBDeepCRSettings) (env : JobEnv) :
    Ev.assignTarget ∉ (dcrMaskStep s env).2.1 := by
  intro h
  rcases mem_dcrMaskStep s env _ h with h2 | h2 | h2 <;> simp at h2

theorem assign_not_mem_lacMaskStep (s : BBLACosmicSettings) (env : JobEnv) :
    Ev.assignTarget ∉ (lacMaskStep s env).2 := by
  intro h
  rcases mem_lacMaskStep s env _ h with h2 | h2 | h2 <;> simp at h2

set_option maxHeartbeats 4000000 in
theorem dcr_assign_mask (s : BBDeepCRSettings) (env : JobEnv) (m : String)
    (h1 : (dcrTryBody s env).err = some m)
    (h2 : Ev.assignTarget ∈ (dcrTryBody s env).events) :
    (dcrMaskStep s env).1 = some m := by
  have hnm := assign_not_mem_dcrMaskStep s env
  have h12 : (dcrTryBody s env).err = some m ∧
      Ev.assignTarget ∈ (dcrTryBody s env).events := ⟨h1, h2⟩
  clear h1 h2
  simp only [dcrTryBody] at h12
  rcases loadImage_cases (dcrCleanedPath s.threshold env.timestamp env.rand)
      env.cleanedOpenOk env.cleanedReadOk with hL | hL | hL | hL <;>
    rw [hL] at h12 <;>
  rcases dcrApplyStep_cases s.replaceActive env.assignOk with hA | hA | hA | hA <;>
    rw [hA] at h12 <;>
  split_ifs at h12 <;>
    (repeat' split at h12) <;>
    simp_all [List.mem_append]

set_option maxHeartbeats 4000000 in
theorem lac_assign_mask (s : BBLACosmicSettings) (env : JobEnv) (m : String)
    (h1 : (lacTryBody s env).err = some m)
    (h2 : Ev.assignTarget ∈ (lacTryBody s env).events) :
    (lacMaskStep s env).1 = some m := by
  have hnm := assign_not_mem_lacMaskStep s env
  have h12 : (lacTryBody s env).err = some m ∧
      Ev.assignTarget ∈ (lacTryBody s env).events := ⟨h1, h2⟩
  clear h1 h2
  simp only [lacTryBody] at h12
  rcases loadFITSImage_cases (lacOutputPath env.timestamp env.rand)
      env.cleanedOpenOk env.cleanedReadOk with hL | hL | hL <;>
    rw [hL] at h12 <;>
  rcases lacApplyStep_cases s.replaceActive env.assignOk with hA | hA | hA | hA <;>
    rw [hA] at h12 <;>
  split_ifs at h12 <;>
    (repeat' split at h12) <;>
    simp_all [List.mem_append]

/-- Claim C2, amended.  A failing job leaves the target image untouched
unless the failure arose in the optional mask-loading step after the primary
result had already been applied in replace mode: in the DeepCR and LAcosmic
scripts, any failing run whose trace contains the target assignment has
exactly the mask step's error as its outcome; the CosmeticCorrection script
(which has no mask step) never assigns the target on any failing run. -/
theorem C2_no_partial_application :
    (∀ s env m, (executeDeepCR s env).outcome = some m →
      Ev.assignTarget ∈ (executeDeepCR s env).trace →
      (dcrMaskStep s env).1 = some m) ∧
    (∀ s env m, (executeCosmicRayRemoval s env).outcome = some m →
      Ev.assignTarget ∈ (executeCosmicRayRemoval s env).trace →
      (lacMaskStep s env).1 = some m) ∧
    (∀ d env m, (applyCosmeticCorrection d env).outcome = some m →
      Ev.assignTarget ∉ (applyCosmeticCorrection d env).trace) := by
  refine ⟨?_, ?_, ?_⟩
  · intro s env m h1 h2
    have hE : (dcrTryBody s env).err = some m := h1
    apply dcr_assign_mask s env m hE
    simp only [executeDeepCR] at h2
    rw [hE] at h2
    simp only [List.mem_append, List.mem_singleton] at h2
    rcases h2 with (h2 | h2) | h2
    · exact h2
    · simp at h2
    · simp at h2
  · intro s env m h1 h2
    have hE : (lacTryBody s env).err = some m := h1
    apply lac_assign_mask s env m hE
    simp only [executeCosmicRayRemoval] at h2
    rw [hE] at h2
    simp only [List.mem_append, List.mem_singleton] at h2
    rcases h2 with (h2 | h2) | h2
    · exact h2
    · simp at h2
    · simp at h2
  · intro d env m h1
    have hE : (ccTryBody d env).1 = some m := h1
    intro h2
    simp only [applyCosmeticCorrection] at h2
    rw [hE] at h2
    simp only [List.mem_append, List.mem_singleton] at h2
    rcases h2 with (h2 | h2) | h2
    · revert hE h2
      simp only [ccTryBody]
      split_ifs <;> simp
    · simp at h2
    · simp at h2

/-- Claim C2, counterexample.  A replace-mode DeepCR job with the mask
requested: the primary result is applied to the target view, then opening
the existing mask file fails, so the job ends in a failure state with the
target image already mutated. -/
theorem C2_counterexample :
    (executeDeepCR { sDCR with replaceActive := true, saveMask := true }
        { envOk with maskExists := true, maskOpenOk := false }).outcome =
      some ("Cannot open image file: " ++ dcrMaskPath 1 7 "k3j9q") ∧
    Ev.assignTarget ∈
      (executeDeepCR { sDCR with replaceActive := true, saveMask := true }
        { envOk with maskExists := true, maskOpenOk := false }).trace := by
  decide

/-- Witness for the amended C2 theorem: a concrete replace-mode DeepCR job
whose mask open fails after the primary was applied has the mask step's
error as its outcome. -/
theorem C2_witness :
    (dcrMaskStep { sDCR with replaceActive := true, saveMask := true }
      { envOk with maskExists := true, maskOpenOk := false }).1 =
      some ("Cannot open image file: " ++ dcrMaskPath 1 7 "k3j9q") :=
  C2_no_partial_application.1
    { sDCR with replaceActive := true, saveMask := true }
    { envOk with maskExists := true, maskOpenOk := false } _
    (by decide) (by decide)

/-- Claim C3 (confirmed): in both scripts that run an external process, a
supervised run that finishes with a nonzero exit code always ends the job in
the process-failure outcome carrying the exit code, and the result loader is
never invoked: the trace contains no file open, no file read, no target
assignment and no new window. -/
theorem C3_exit_code_gating :
    (∀ s env e, env.wrapperExists = true → env.hasActiveWindow = true →
      env.saveAsOk = true → supervise env.finishedBy 600000 100 = .finished e →
      env.exitCode ≠ 0 →
      (executeDeepCR s env).outcome =
        some ("DeepCR failed with exit code " ++ toString env.exitCode) ∧
      (∀ p, Ev.fileOpen p ∉ (executeDeepCR s env).trace) ∧
      (∀ p, Ev.fileRead p ∉ (executeDeepCR s env).trace) ∧
      Ev.assignTarget ∉ (executeDeepCR s env).trace ∧
      (∀ i, Ev.newWindow i ∉ (executeDeepCR s env).trace)) ∧
    (∀ s env e, env.wrapperExists = true → env.hasActiveWindow = true →
      env.saveAsOk = true → supervise env.finishedBy 600000 100 = .finished e →
      env.exitCode ≠ 0 →
      (executeCosmicRayRemoval s env).outcome =
        some ("L.A.Cosmic failed with exit code " ++ toString env.exitCode) ∧
      (∀ p, Ev.fileOpen p ∉ (executeCosmicRayRemoval s env).trace) ∧
      (∀ p, Ev.fileRead p ∉ (executeCosmicRayRemoval s env).trace) ∧
      Ev.assignTarget ∉ (executeCosmicRayRemoval s env).trace ∧
      (∀ i, Ev.newWindow i ∉ (executeCosmicRayRemoval s env).trace)) := by
  constructor
  · intro s env e hw hh hs hsup hec
    refine ⟨?_, ?_, ?_, ?_, ?_⟩ <;>
      simp [executeDeepCR, dcrTryBody, hw, hh, hs, hsup, hec]
  · intro s env e hw hh hs hsup hec
    refine ⟨?_, ?_, ?_, ?_, ?_⟩ <;>
      simp [executeCosmicRayRemoval, lacTryBody, hw, hh, hs, hsup, hec]

/-- Witness for C3: a concrete DeepCR run exiting with code 1. -/
theorem C3_witness :
    (executeDeepCR sDCR { envOk with exitCode := 1 }).outcome =
      some ("DeepCR failed with exit code " ++ toString (1 : Int)) ∧
    Ev.assignTarget ∉ (executeDeepCR sDCR { envOk with exitCode := 1 }).trace := by
  have h := C3_exit_code_gating.1 sDCR { envOk with exitCode := 1 } 100
    rfl rfl rfl (by decide) (by decide)
  exact ⟨h.1, h.2.2.2.1⟩

/-- Claim C4 (confirmed): the supervision loop polls on a fixed interval and
tracks elapsed time; for a process that never terminates it kills the child
and fails with the timeout error at an elapsed time that exceeds the budget
by at most one poll interval, and on the timeout path the pipelines never
capture a process result. -/
theorem C4_timeout_enforcement :
    (∀ fb tMs pMs, 0 < pMs → (∀ t, fb t = false) →
      ∃ e, supervise fb tMs pMs = .timedOut e ∧ tMs < e ∧ e ≤ tMs + pMs) ∧
    (∀ s env e, env.wrapperExists = true → env.hasActiveWindow = true →
      env.saveAsOk = true → supervise env.finishedBy 600000 100 = .timedOut e →
      (executeDeepCR s env).outcome = some "Processing timed out after 10 minutes" ∧
      Ev.kill ∈ (executeDeepCR s env).trace ∧
      (∀ c, Ev.captured c ∉ (executeDeepCR s env).trace)) ∧
    (∀ s env e, env.wrapperExists = true → env.hasActiveWindow = true →
      env.saveAsOk = true → supervise env.finishedBy 600000 100 = .timedOut e →
      (executeCosmicRayRemoval s env).outcome =
        some "Processing timed out after 10 minutes" ∧
      Ev.kill ∈ (executeCosmicRayRemoval s env).trace ∧
      (∀ c, Ev.captured c ∉ (executeCosmicRayRemoval s env).trace)) := by
  refine ⟨supervise_timeout, ?_, ?_⟩
  · intro s env e hw hh hs hsup
    refine ⟨?_, ?_, ?_⟩ <;>
      simp [executeDeepCR, dcrTryBody, hw, hh, hs, hsup]
  · intro s env e hw hh hs hsup
    refine ⟨?_, ?_, ?_⟩ <;>
      simp [executeCosmicRayRemoval, lacTryBody, hw, hh, hs, hsup]

/-- Witness for C4: with a process that never finishes, the DeepCR job ends
in the timeout outcome and the trace records the kill. -/
theorem C4_witness :
    (executeDeepCR sDCR { envOk with finishedBy := fun _ => false }).outcome =
      some "Processing timed out after 10 minutes" ∧
    Ev.kill ∈ (executeDeepCR sDCR { envOk with finishedBy := fun _ => false }).trace := by
  obtain ⟨e, he, -, -⟩ :=
    C4_timeout_enforcement.1 (fun _ => false) 600000 100 (by decide) (fun _ => rfl)
  have h := C4_timeout_enforcement.2.1 sDCR
    { envOk with finishedBy := fun _ => false } e rfl rfl rfl he
  exact ⟨h.1, h.2.1⟩

set_option maxHeartbeats 4000000 in
/-- Claim C5 (confirmed): for each of the three scripts, exporting any
parameter set and importing the persisted form reproduces the set on every
recognized key, whatever the prior in-memory values were. -/
theorem C5_parameter_roundtrip :
    (∀ p s0, dcrImportParameters (dcrExportParameters p) s0 = p) ∧
    (∀ p s0,
      (lacImportParameters (lacExportParameters p) s0).sigclip = p.sigclip ∧
      (lacImportParameters (lacExportParameters p) s0).objlim = p.objlim ∧
      (lacImportParameters (lacExportParameters p) s0).readnoise = p.readnoise ∧
      (lacImportParameters (lacExportParameters p) s0).gain = p.gain ∧
      (lacImportParameters (lacExportParameters p) s0).niter = p.niter ∧
      (lacImportParameters (lacExportParameters p) s0).cleantype = p.cleantype ∧
      (lacImportParameters (lacExportParameters p) s0).saveMask = p.saveMask ∧
      (lacImportParameters (lacExportParameters p) s0).replaceActive = p.replaceActive) ∧
    (∀ p s0, ccImportParameters (ccExportParameters p) s0 = p) := by
  refine ⟨?_, ?_, ?_⟩ <;> intro p s0
  · simp [dcrExportParameters, dcrImportParameters, pSet, pLookup,
      pGetString, pGetReal, pGetBoolean]
  · refine ⟨?_, ?_, ?_, ?_, ?_, ?_, ?_, ?_⟩ <;>
      simp [lacExportParameters, lacImportParameters, pSet, pLookup,
        pGetString, pGetReal, pGetBoolean, pGetInteger]
  · simp [ccExportParameters, ccImportParameters, pSet, pLookup,
      pGetString, pGetReal, pGetBoolean]

theorem str_append_assoc (a b c : String) : a ++ b ++ c = a ++ (b ++ c) := by
  apply str_eq_of_data
  simp [str_data_append, List.append_assoc]

theorem str_append_cancel (a sfx r1 r2 : String)
    (h : a ++ r1 ++ sfx = a ++ r2 ++ sfx) : r1 = r2 := by
  have hd := congrArg String.data h
  rw [str_data_append, str_data_append, str_data_append, str_data_append] at hd
  exact str_eq_of_data _ _ (List.append_cancel_left (List.append_cancel_right hd))

/-- Claim C6, amended.  The DeepCR and LAcosmic allocators combine the
timestamp with a random suffix, so that within one millisecond distinct
random draws give distinct paths, and both allocate inside the system temp
directory.  The CosmeticCorrection script, however, derives its temp paths
from the timestamp alone (see the counterexample), so the claim's "every
temp-path allocation" fails for it. -/
theorem C6_temp_path_allocation :
    sameMillisDistinct dcrGenerateSecureTempFilename ∧
    sameMillisDistinct lacGenerateSecureTempFilename ∧
    (∀ t r, ∃ rest, dcrGenerateSecureTempFilename t r = systemTempDirectory ++ rest) ∧
    (∀ t r, ∃ rest, lacGenerateSecureTempFilename t r = systemTempDirectory ++ rest) ∧
    (∀ t, ∃ rest, ccTempInputFile t = systemTempDirectory ++ rest) := by
  refine ⟨?_, ?_, ?_, ?_, ?_⟩
  · intro t r1 r2 hne h
    exact hne (str_append_cancel _ _ _ _ h)
  · intro t r1 r2 hne h
    exact hne (str_append_cancel _ _ _ _ h)
  · intro t r
    exact ⟨"/bbdcr_" ++ (toString t ++ ("_" ++ (r ++ ".xisf"))), by
      simp [dcrGenerateSecureTempFilename, str_append_assoc]⟩
  · intro t r
    exact ⟨"/bblac_" ++ (toString t ++ ("_" ++ (r ++ ".fits"))), by
      simp [lacGenerateSecureTempFilename, str_append_assoc]⟩
  · intro t
    exact ⟨"/bb_cc_input_" ++ (toString t ++ ".xisf"), by
      simp [ccTempInputFile, str_append_assoc]⟩

/-- Claim C6, counterexample.  Seen as a function of the job's timestamp and
random draw, the CosmeticCorrection temp-path allocation ignores the random
draw entirely (BB_CosmeticCorrection.js lines 424-426), so two allocations
in the same millisecond with different random states collide. -/
theorem C6_counterexample :
    ¬ sameMillisDistinct (fun t _ => ccTempInputFile t) := by
  intro h
  exact h 0 "a" "b" (by decide) rfl

/-- Witness for the amended C6 theorem at concrete inputs. -/
theorem C6_witness :
    dcrGenerateSecureTempFilename 7 "a" ≠ dcrGenerateSecureTempFilename 7 "b" :=
  C6_temp_path_allocation.1 7 "a" "b" (by decide)

theorem dcrTryBody_spawn (s : BBDeepCRSettings) (env : JobEnv)
    (hw : env.wrapperExists = true) (hh : env.hasActiveWindow = true)
    (hs : env.saveAsOk = true) :
    ∃ rest, (dcrTryBody s env).events =
      Ev.spawn (dcrBuildCommandArray s
        (dcrGenerateSecureTempFilename env.timestamp env.rand)) :: rest := by
  unfold dcrTryBody
  rw [hw, hh, hs]
  simp only [Bool.not_true, Bool.false_eq_true, if_false]
  (repeat' split) <;> exact ⟨_, rfl⟩

/-- Claim C7, amended.  On the interactive path the Execute button refuses to
start the pipeline while the threshold field is invalid (outside (0, 1]);
`buildCommandArray` itself performs no validation, and whenever the wrapper
exists, a window is active and the export succeeds, the DeepCR pipeline
spawns the external process whatever the threshold value is — including
out-of-domain values reached through the batch entry (see the
counterexample). -/
theorem C7_validation_before_launch :
    (∀ d v env, ¬(0 < v ∧ v ≤ 1) →
      dcrExecuteClick (dcrOnThresholdTextUpdated d v) env = none) ∧
    (∀ s env, env.wrapperExists = true → env.hasActiveWindow = true →
      env.saveAsOk = true →
      Ev.spawn (dcrBuildCommandArray s
        (dcrGenerateSecureTempFilename env.timestamp env.rand)) ∈
        (executeDeepCR s env).trace) := by
  constructor
  · intro d v env hv
    have hv2 : v ≤ 0 ∨ 1 < v := by
      by_contra h2
      push_neg at h2
      exact hv ⟨h2.1, h2.2⟩
    unfold dcrOnThresholdTextUpdated
    rw [if_pos hv2]
    rfl
  · intro s env hw hh hs
    obtain ⟨rest, hr⟩ := dcrTryBody_spawn s env hw hh hs
    have h : Ev.spawn (dcrBuildCommandArray s
        (dcrGenerateSecureTempFilename env.timestamp env.rand)) ∈
        (dcrTryBody s env).events := by
      rw [hr]
      exact List.mem_cons_self _ _
    exact List.mem_append_left _ (List.mem_append_left _ h)

set_option maxHeartbeats 2000000 in
/-- Claim C7, counterexample.  A saved parameter set carrying threshold 5 —
outside the documented domain (0, 1] — is imported by the non-interactive
view-target entry, and the external process is spawned with it; no
validation error occurs anywhere (the run even succeeds). -/
theorem C7_counterexample :
    ¬(0 < ({ sDCR with threshold := 5 } : BBDeepCRSettings).threshold ∧
      ({ sDCR with threshold := 5 } : BBDeepCRSettings).threshold ≤ 1) ∧
    Ev.spawn (dcrBuildCommandArray { sDCR with threshold := 5 }
        (dcrGenerateSecureTempFilename 7 "k3j9q")) ∈
      (dcrMainViewTarget (dcrExportParameters { sDCR with threshold := 5 })
        sDCR envOk).trace ∧
    (dcrMainViewTarget (dcrExportParameters { sDCR with threshold := 5 })
        sDCR envOk).outcome = none := by
  exact ⟨by decide, by decide, by decide⟩

/-- Witness for the amended C7 theorem at concrete inputs: an invalid
threshold text entry blocks the Execute button, and a benign job spawns. -/
theorem C7_witness :
    dcrExecuteClick (dcrOnThresholdTextUpdated ⟨sDCR, true⟩ 5) envOk = none ∧
    Ev.spawn (dcrBuildCommandArray sDCR
      (dcrGenerateSecureTempFilename 7 "k3j9q")) ∈
      (executeDeepCR sDCR envOk).trace :=
  ⟨C7_validation_before_launch.1 ⟨sDCR, true⟩ 5 envOk (by decide),
    C7_validation_before_launch.2 sDCR envOk rfl rfl rfl⟩

/-- Claim C8, amended.  The DeepCR loader selects the container format purely
from the lower-cased filename suffix, supports two distinct formats (XISF
and FITS, the latter for both `.fits` and `.fit`), and fails on any other
suffix without attempting to open the file.  The LAcosmic loader, however,
hard-codes the FITS format and attempts to open the file whatever its
suffix (see the counterexample). -/
theorem C8_format_by_suffix :
    (∀ p o r, dcrDetectFormat p = none →
      loadImage p o r = (.error ("Unsupported image format: " ++ p), [])) ∧
    dcrDetectFormat "image.xisf" = some ".xisf" ∧
    dcrDetectFormat "image.fits" = some ".fits" ∧
    dcrDetectFormat "image.fit" = some ".fits" ∧
    dcrDetectFormat "image.png" = none ∧
    (∀ p o r, Ev.fileOpen p ∈ (loadFITSImage p o r).2) := by
  refine ⟨?_, by decide, by decide, by decide, by decide, ?_⟩
  · intro p o r h
    unfold loadImage
    rw [h]
  · intro p o r
    rcases loadFITSImage_events p o r with h | h <;> rw [h] <;> simp

/-- Claim C8, counterexample.  Given a path with an unsupported suffix, the
LAcosmic result loader does not fail with an immediate format error: it
attempts to open the file and, when the host can decode it, succeeds. -/
theorem C8_counterexample :
    (loadFITSImage "out.xyz" true true).1 = .ok () ∧
    Ev.fileOpen "out.xyz" ∈ (loadFITSImage "out.xyz" true true).2 := by
  exact ⟨rfl, by decide⟩

/-- Witness for the amended C8 theorem: an unsupported suffix is rejected by
the DeepCR loader without any file access. -/
theorem C8_witness :
    loadImage "image.png" true true =
      (.error ("Unsupported image format: " ++ "image.png"), []) :=
  C8_format_by_suffix.1 "image.png" true true (by decide)

/-- Claim C9, amended.  In replace mode the target mutation happens between
the `beginProcess` and `endProcess` calls; when the assignment succeeds the
three bracket events appear consecutively in the trace, but the bracket has
no try/finally around it, so when the assignment step fails `endProcess`
never runs — the bracket is opened and not closed and the job ends in
failure (see the counterexample).  Shown for the DeepCR pipeline and for the
CosmeticCorrection pipeline. -/
theorem C9_replace_bracket :
    (∀ s env e, s.replaceActive = true → env.wrapperExists = true →
      env.hasActiveWindow = true → env.saveAsOk = true →
      supervise env.finishedBy 600000 100 = .finished e → env.exitCode = 0 →
      env.cleanedExists = true → env.cleanedOpenOk = true →
      env.cleanedReadOk = true →
      (env.assignOk = true → ∃ pre suf, (executeDeepCR s env).trace =
        pre ++ Ev.beginTarget :: Ev.assignTarget :: Ev.endTarget :: suf) ∧
      (env.assignOk = false → Ev.beginTarget ∈ (executeDeepCR s env).trace ∧
        Ev.endTarget ∉ (executeDeepCR s env).trace ∧
        (executeDeepCR s env).outcome ≠ none)) ∧
    (∀ d env, env.saveAsOk = true → env.execOk = true →
      env.outputExists = true → env.openOk = true →
      (env.assignOk = true → ∃ pre suf, (applyCosmeticCorrection d env).trace =
        pre ++ Ev.beginTarget :: Ev.assignTarget :: Ev.endTarget :: suf) ∧
      (env.assignOk = false →
        Ev.beginTarget ∈ (applyCosmeticCorrection d env).trace ∧
        Ev.endTarget ∉ (applyCosmeticCorrection d env).trace ∧
        (applyCosmeticCorrection d env).outcome ≠ none)) := by
  constructor
  · intro s env e hra hw hh hs hsup hec hce hco hcr
    have hload := loadImage_ok (dcrCleanedPath s.threshold env.timestamp env.rand)
      _ (dcrDetectFormat_cleanedPath s.threshold env.timestamp env.rand)
    constructor
    · intro hao
      cases hM : (dcrMaskStep s env).1 with
      | some m =>
        refine ⟨[Ev.spawn (dcrBuildCommandArray s
            (dcrGenerateSecureTempFilename env.timestamp env.rand)),
          Ev.captured 0,
          Ev.fileOpen (dcrCleanedPath s.threshold env.timestamp env.rand),
          Ev.fileRead (dcrCleanedPath s.threshold env.timestamp env.rand)],
          (dcrMaskStep s env).2.1 ++
            [Ev.reportError m, Ev.cleanup (jobCleanupList (dcrTryBody s env) env)], ?_⟩
        simp [executeDeepCR, dcrTryBody, hra, hw, hh, hs, hsup, hec, hce, hco, hcr,
          hao, hload, hM, dcrApplyStep]
      | none =>
        refine ⟨[Ev.spawn (dcrBuildCommandArray s
            (dcrGenerateSecureTempFilename env.timestamp env.rand)),
          Ev.captured 0,
          Ev.fileOpen (dcrCleanedPath s.threshold env.timestamp env.rand),
          Ev.fileRead (dcrCleanedPath s.threshold env.timestamp env.rand)],
          (dcrMaskStep s env).2.1 ++ [Ev.reportSuccess,
            Ev.cleanup (jobCleanupList (dcrTryBody s env) env)], ?_⟩
        simp [executeDeepCR, dcrTryBody, hra, hw, hh, hs, hsup, hec, hce, hco, hcr,
          hao, hload, hM, dcrApplyStep]
    · intro hao
      refine ⟨?_, ?_, ?_⟩ <;>
        simp [executeDeepCR, dcrTryBody, hra, hw, hh, hs, hsup, hec, hce, hco, hcr,
          hao, hload, dcrApplyStep]
  · intro d env hs he ho hop
    constructor
    · intro hao
      refine ⟨[Ev.execGlobal, Ev.fileOpen (ccTempOutputFile env.timestamp)],
        [Ev.reportSuccess, Ev.cleanup ([ccTempInputFile env.timestamp] ++
          [ccTempOutputFile env.timestamp])], ?_⟩
      simp [applyCosmeticCorrection, ccTryBody, hs, he, ho, hop, hao]
    · intro hao
      refine ⟨?_, ?_, ?_⟩ <;>
        simp [applyCosmeticCorrection, ccTryBody, hs, he, ho, hop, hao]

/-- Claim C9, counterexample.  A replace-mode DeepCR job whose assignment
step fails: the bracket is opened (`beginProcess` ran) but `endProcess`
never runs, and the job ends in failure — the closing release is not
guaranteed. -/
theorem C9_counterexample :
    Ev.beginTarget ∈ (executeDeepCR { sDCR with replaceActive := true }
      { envOk with assignOk := false }).trace ∧
    Ev.endTarget ∉ (executeDeepCR { sDCR with replaceActive := true }
      { envOk with assignOk := false }).trace ∧
    (executeDeepCR { sDCR with replaceActive := true }
      { envOk with assignOk := false }).outcome ≠ none := by
  refine ⟨by decide, by decide, by decide⟩

/-- Witness for the amended C9 theorem: a successful concrete replace-mode
job contains the full begin/assign/end bracket consecutively. -/
theorem C9_witness :
    ∃ pre suf, (executeDeepCR { sDCR with replaceActive := true } envOk).trace =
      pre ++ Ev.beginTarget :: Ev.assignTarget :: Ev.endTarget :: suf :=
  (C9_replace_bracket.1 { sDCR with replaceActive := true } envOk 100
    rfl rfl rfl rfl (by decide) rfl rfl rfl rfl).1 rfl

/-- Claim C10 (confirmed): when the mask was requested, the tool exits 0,
and the primary result loads and applies successfully, but the expected mask
file does not exist, the job still ends in success: no error is raised and
no mask window is created.  Shown for both the DeepCR and the LAcosmic
pipelines. -/
theorem C10_missing_mask_is_silent :
    (∀ s env e, s.saveMask = true → env.wrapperExists = true →
      env.hasActiveWindow = true → env.saveAsOk = true →
      supervise env.finishedBy 600000 100 = .finished e → env.exitCode = 0 →
      env.cleanedExists = true → env.cleanedOpenOk = true →
      env.cleanedReadOk = true → env.assignOk = true → env.maskExists = false →
      (executeDeepCR s env).outcome = none ∧
      (∀ i, Ev.maskWindow i ∉ (executeDeepCR s env).trace)) ∧
    (∀ s env e, s.saveMask = true → env.wrapperExists = true →
      env.hasActiveWindow = true → env.saveAsOk = true →
      supervise env.finishedBy 600000 100 = .finished e → env.exitCode = 0 →
      env.cleanedExists = true → env.cleanedOpenOk = true →
      env.cleanedReadOk = true → env.assignOk = true → env.maskExists = false →
      (executeCosmicRayRemoval s env).outcome = none ∧
      (∀ i, Ev.maskWindow i ∉ (executeCosmicRayRemoval s env).trace)) := by
  constructor
  · intro s env e hsm hw hh hs hsup hec hce hco hcr hao hme
    have hload := loadImage_ok (dcrCleanedPath s.threshold env.timestamp env.rand)
      _ (dcrDetectFormat_cleanedPath s.threshold env.timestamp env.rand)
    cases hra : s.replaceActive <;>
      refine ⟨?_, ?_⟩ <;>
      simp [executeDeepCR, dcrTryBody, dcrMaskStep, dcrApplyStep, hsm, hw, hh, hs,
        hsup, hec, hce, hco, hcr, hao, hme, hra, hload]
  · intro s env e hsm hw hh hs hsup hec hce hco hcr hao hme
    cases hra : s.replaceActive <;>
      refine ⟨?_, ?_⟩ <;>
      simp [executeCosmicRayRemoval, lacTryBody, lacMaskStep, lacApplyStep,
        loadFITSImage, hsm, hw, hh, hs, hsup, hec, hce, hco, hcr, hao, hme, hra]

/-- Witness for C10: a concrete DeepCR job with the mask requested but
absent still succeeds with no mask window. -/
theorem C10_witness :
    (executeDeepCR { sDCR with saveMask := true } envOk).outcome = none ∧
    (∀ i, Ev.maskWindow i ∉
      (executeDeepCR { sDCR with saveMask := true } envOk).trace) :=
  C10_missing_mask_is_silent.1 { sDCR with saveMask := true } envOk 100
    rfl rfl rfl rfl (by decide) rfl rfl rfl rfl rfl rfl
